import Mathlib

/-!
Verification development for the swapx trading-bot strategy engine.

The development shallowly embeds the three strategy variants
(BuySellStrategy, DCAStrategy, GridStrategy) and the BotRunner registry.
JavaScript numbers are modelled as exact rationals (reals for the
grid-level prices, whose geometric mode uses a real root); the trade log
sink receives structured events, so log messages are abstracted to an
event kind together with the tradeLog channel (level) used; the network
side of a swap attempt (buyXOC / sellXOC) is an oracle parameter giving
the attempt's outcome.  Timers are modelled by a Boolean handle: `true`
when `setInterval` has been called and not yet cleared.
-/

set_option linter.unusedVariables false

/-- Log severity levels of the trade log sink (the tradeLog.info /
tradeLog.success / tradeLog.warning / tradeLog.error channels). -/
inductive LogLevel where
  | info
  | success
  | warning
  | error
deriving DecidableEq, Repr

/-- Outcome of a swap attempt (buyXOC / sellXOC): success, a failure whose
message matches one of the insufficient-funds patterns tested in the catch
blocks, or any other failure. -/
inductive TradeOutcome where
  | success
  | failInsufficient
  | failOther
deriving DecidableEq, Repr

/-- Trade direction attempted within one evaluation tick. -/
inductive TradeDirection where
  | buy
  | sell
deriving DecidableEq, Repr

/-- Log events emitted by BuySellStrategy.  Message text is abstracted to
the event kind; `bsLogLevel` records the tradeLog channel used by the
corresponding call in the source. -/
inductive BSLog where
  | alreadyRunningWarning
  | startBanner
  | timerStarted
  | notRunningWarning
  | buySignal
  | sellSignal
  | buyStart
  | sellStart
  | buySuccess
  | sellSuccess
  | buyFailInsufficient
  | sellFailInsufficient
  | buyFailOther
  | sellFailOther
  | heartbeat
  | stopSummary
deriving DecidableEq, Repr

/-- Channel (severity) of each BuySellStrategy log event, as in the source:
trigger banners and insufficient-funds failures go to tradeLog.warning,
successful trades and the start banner to tradeLog.success, other failures
to tradeLog.error, the rest to tradeLog.info. -/
def bsLogLevel : BSLog → LogLevel
  | BSLog.alreadyRunningWarning => LogLevel.warning
  | BSLog.startBanner => LogLevel.success
  | BSLog.timerStarted => LogLevel.info
  | BSLog.notRunningWarning => LogLevel.warning
  | BSLog.buySignal => LogLevel.warning
  | BSLog.sellSignal => LogLevel.warning
  | BSLog.buyStart => LogLevel.info
  | BSLog.sellStart => LogLevel.info
  | BSLog.buySuccess => LogLevel.success
  | BSLog.sellSuccess => LogLevel.success
  | BSLog.buyFailInsufficient => LogLevel.warning
  | BSLog.sellFailInsufficient => LogLevel.warning
  | BSLog.buyFailOther => LogLevel.error
  | BSLog.sellFailOther => LogLevel.error
  | BSLog.heartbeat => LogLevel.info
  | BSLog.stopSummary => LogLevel.info

/-- Configuration of BuySellStrategy:
buyThreshold, sellThreshold, tradeAmount, checkInterval. -/
structure BSConfig where
  buyThreshold : ℚ
  sellThreshold : ℚ
  tradeAmount : ℚ
  checkInterval : ℚ
deriving DecidableEq, Repr

/-- Running statistics accumulated by BuySellStrategy (this.stats). -/
structure BSStats where
  totalBuyCount : ℕ
  totalSellCount : ℕ
  totalBuyAmount : ℚ
  totalSellAmount : ℚ
  totalXOCBought : ℚ
  totalXOCSold : ℚ
  failedTrades : ℕ
deriving DecidableEq, Repr

/-- Mutable state of a BuySellStrategy instance. -/
structure BuySellStrategy where
  config : BSConfig
  isRunning : Bool
  timer : Bool
  lastPrice : Option ℚ
  stats : BSStats
deriving DecidableEq, Repr

/-- Result of invoking a start entry point: the error thrown (if any), the
state of the instance afterwards, and the log events emitted.  When `err`
is set, `state` is the instance state at the moment of the throw. -/
structure StartResult (σ L : Type) where
  err : Option String
  state : σ
  logs : List L
deriving DecidableEq, Repr

/-- BuySellStrategy.executeBuy: attempts buyXOC of tradeAmount.  On success
the buy counters grow; on any failure stats.failedTrades is incremented
first, then the error message is classified — insufficient-funds failures
are logged on the warning channel, all others on the error channel. -/
def bsExecuteBuy (c : BSConfig) (st : BSStats) (price : ℚ) (o : TradeOutcome) :
    BSStats × List BSLog :=
  match o with
  | TradeOutcome.success =>
      ({ st with
          totalBuyCount := st.totalBuyCount + 1
          totalBuyAmount := st.totalBuyAmount + c.tradeAmount
          totalXOCBought := st.totalXOCBought + c.tradeAmount / price },
        [BSLog.buyStart, BSLog.buySuccess])
  | TradeOutcome.failInsufficient =>
      ({ st with failedTrades := st.failedTrades + 1 },
        [BSLog.buyStart, BSLog.buyFailInsufficient])
  | TradeOutcome.failOther =>
      ({ st with failedTrades := st.failedTrades + 1 },
        [BSLog.buyStart, BSLog.buyFailOther])

/-- BuySellStrategy.executeSell: sells tradeAmount / price base units for an
expected tradeAmount-equivalent of quote currency.  Failure handling is
the same shape as in bsExecuteBuy. -/
def bsExecuteSell (c : BSConfig) (st : BSStats) (price : ℚ) (o : TradeOutcome) :
    BSStats × List BSLog :=
  match o with
  | TradeOutcome.success =>
      ({ st with
          totalSellCount := st.totalSellCount + 1
          totalSellAmount := st.totalSellAmount + (c.tradeAmount / price) * price
          totalXOCSold := st.totalXOCSold + c.tradeAmount / price },
        [BSLog.sellStart, BSLog.sellSuccess])
  | TradeOutcome.failInsufficient =>
      ({ st with failedTrades := st.failedTrades + 1 },
        [BSLog.sellStart, BSLog.sellFailInsufficient])
  | TradeOutcome.failOther =>
      ({ st with failedTrades := st.failedTrades + 1 },
        [BSLog.sellStart, BSLog.sellFailOther])

/-- Result of one BuySellStrategy tick: the updated instance, the trade
directions attempted during the tick, and the log events emitted. -/
structure BSTickResult where
  state : BuySellStrategy
  attempts : List TradeDirection
  logs : List BSLog
deriving DecidableEq, Repr

/-- BuySellStrategy.checkAndTrade with a successfully fetched price: skips
with a warning when not running; otherwise records the price, then
dispatches — buy branch when price ≤ buyThreshold, else sell branch when
price ≥ sellThreshold, else idle.  In the idle branch the source computes
totalChecks as stats.totalBuyCount + stats.totalSellCount and emits the
heartbeat status log exactly when totalChecks % 10 == 0. -/
def bsCheckAndTrade (s : BuySellStrategy) (price : ℚ) (o : TradeOutcome) :
    BSTickResult :=
  if s.isRunning = false then
    { state := s, attempts := [], logs := [BSLog.notRunningWarning] }
  else
    let s1 := { s with lastPrice := some price }
    if price ≤ s1.config.buyThreshold then
      let r := bsExecuteBuy s1.config s1.stats price o
      { state := { s1 with stats := r.1 },
        attempts := [TradeDirection.buy],
        logs := BSLog.buySignal :: r.2 }
    else if s1.config.sellThreshold ≤ price then
      let r := bsExecuteSell s1.config s1.stats price o
      { state := { s1 with stats := r.1 },
        attempts := [TradeDirection.sell],
        logs := BSLog.sellSignal :: r.2 }
    else
      let totalChecks := s1.stats.totalBuyCount + s1.stats.totalSellCount
      { state := s1, attempts := [],
        logs := if totalChecks % 10 = 0 then [BSLog.heartbeat] else [] }

/-- BuySellStrategy.start: when already running it logs a warning and
returns normally (no exception); otherwise it flips the running flag,
emits the start banner, schedules the recurring timer and returns. -/
def bsStart (s : BuySellStrategy) : StartResult BuySellStrategy BSLog :=
  if s.isRunning then
    { err := none, state := s, logs := [BSLog.alreadyRunningWarning] }
  else
    { err := none,
      state := { s with isRunning := true, timer := true },
      logs := [BSLog.startBanner, BSLog.timerStarted] }

/-- BuySellStrategy.stop: clears the timer if set, flips the running flag
false, and unconditionally emits the stop-summary log. -/
def bsStop (s : BuySellStrategy) : BuySellStrategy × List BSLog :=
  ({ s with timer := false, isRunning := false }, [BSLog.stopSummary])

/-- Zeroed statistics record, as set up by the constructor. -/
def bsStats0 : BSStats :=
  { totalBuyCount := 0, totalSellCount := 0,
    totalBuyAmount := 0, totalSellAmount := 0,
    totalXOCBought := 0, totalXOCSold := 0, failedTrades := 0 }

example :
    (bsCheckAndTrade
      { config := { buyThreshold := 82/1000, sellThreshold := 15/100,
                    tradeAmount := 1, checkInterval := 30 },
        isRunning := true, timer := true, lastPrice := none,
        stats := bsStats0 }
      (7/100) TradeOutcome.success).attempts = [TradeDirection.buy] := by
  norm_num [bsCheckAndTrade, bsExecuteBuy, bsStats0]

/-- DCA log events; message text abstracted to the event kind. -/
inductive DCALog where
  | startInfo
  | stopSummary
  | budgetComplete
  | priceSkipWarning
  | attemptInfo
  | buySuccess
  | buyError
  | checkError
deriving DecidableEq, Repr

/-- Channel of each DCAStrategy log event in the source: the budget
completion goes to tradeLog.success, the price-cap skip to
tradeLog.warning, trade and check failures to tradeLog.error. -/
def dcaLogLevel : DCALog → LogLevel
  | DCALog.startInfo => LogLevel.info
  | DCALog.stopSummary => LogLevel.info
  | DCALog.budgetComplete => LogLevel.success
  | DCALog.priceSkipWarning => LogLevel.warning
  | DCALog.attemptInfo => LogLevel.info
  | DCALog.buySuccess => LogLevel.success
  | DCALog.buyError => LogLevel.error
  | DCALog.checkError => LogLevel.error

/-- Configuration of DCAStrategy: amount, interval, totalBudget,
optional maxPrice guard. -/
structure DCAConfig where
  amount : ℚ
  interval : ℚ
  totalBudget : ℚ
  maxPrice : Option ℚ
deriving DecidableEq, Repr

/-- Mutable state of a DCAStrategy instance; the constructor zeroes
totalSpent and executedTimes. -/
structure DCAStrategy where
  config : DCAConfig
  isRunning : Bool
  timer : Bool
  totalSpent : ℚ
  executedTimes : ℕ
deriving DecidableEq, Repr

/-- Classification of what one DCA tick did. -/
inductive DCAAction where
  | selfStopped
  | skippedPrice
  | bought
  | failed
deriving DecidableEq, Repr

/-- DCAStrategy.stop: clears the timer if set, flips the running flag
false, and unconditionally emits the stop-summary log. -/
def dcaStop (s : DCAStrategy) : DCAStrategy × List DCALog :=
  ({ s with timer := false, isRunning := false }, [DCALog.stopSummary])

/-- DCAStrategy.executeTrade: attempts buyXOC of the configured amount.
On success, executedTimes is incremented and totalSpent grows by exactly
config.amount (nominal accounting).  On failure the error is logged and
rethrown to the caller. -/
def dcaExecuteTrade (s : DCAStrategy) (succeeds : Bool) :
    DCAStrategy × DCAAction × List DCALog :=
  if succeeds then
    ({ s with executedTimes := s.executedTimes + 1,
              totalSpent := s.totalSpent + s.config.amount },
      DCAAction.bought, [DCALog.attemptInfo, DCALog.buySuccess])
  else
    (s, DCAAction.failed, [DCALog.attemptInfo, DCALog.buyError])

/-- DCAStrategy.checkAndExecute, one tick: (1) if
totalSpent + amount > totalBudget, call stop() and emit the completion
log (terminal self-stop, no trade); (2) else if maxPrice is set and the
current price exceeds it, skip with a warning; (3) else execute the
trade; a trade failure is rethrown and caught at the tick boundary,
adding the check-failure log. -/
def dcaCheckAndExecute (s : DCAStrategy) (price : ℚ) (succeeds : Bool) :
    DCAStrategy × DCAAction × List DCALog :=
  if s.config.totalBudget < s.totalSpent + s.config.amount then
    let r := dcaStop s
    (r.1, DCAAction.selfStopped, r.2 ++ [DCALog.budgetComplete])
  else if (match s.config.maxPrice with
           | some m => decide (m < price)
           | none => false) then
    (s, DCAAction.skippedPrice, [DCALog.priceSkipWarning])
  else
    match dcaExecuteTrade s succeeds with
    | (s2, DCAAction.failed, logs) =>
        (s2, DCAAction.failed, logs ++ [DCALog.checkError])
    | r => r

/-- DCAStrategy.start: throws when already running; throws when
totalSpent ≥ totalBudget (budget exhausted) before any mutation;
otherwise flips the running flag, logs, fires the first tick and
schedules the recurring timer. -/
def dcaStart (s : DCAStrategy) : StartResult DCAStrategy DCALog :=
  if s.isRunning then
    { err := some "策略已在运行中", state := s, logs := [] }
  else if s.config.totalBudget ≤ s.totalSpent then
    { err := some "预算已用尽，无法启动", state := s, logs := [] }
  else
    { err := none, state := { s with isRunning := true, timer := true },
      logs := [DCALog.startInfo] }

/-- Scheduler view of a running DCA strategy: a tick (price together with
the swap outcome) is delivered only while the recurring timer is alive;
the self-stop in dcaCheckAndExecute clears the timer, after which
remaining scheduled ticks no longer fire. -/
def dcaRun (s : DCAStrategy) : List (ℚ × Bool) → DCAStrategy
  | [] => s
  | t :: ts =>
      if s.timer then dcaRun (dcaCheckAndExecute s t.1 t.2).1 ts else s

example :
    (dcaRun
      { config := { amount := 10, interval := 3600, totalBudget := 25, maxPrice := none },
        isRunning := true, timer := true, totalSpent := 0, executedTimes := 0 }
      [(1, true), (1, true), (1, true)]).totalSpent = 20 := by
  norm_num [dcaRun, dcaCheckAndExecute, dcaExecuteTrade, dcaStop]

/-- Grid spacing modes: arithmetic (default branch) or geometric. -/
inductive GridType where
  | arithmetic
  | geometric
deriving DecidableEq, Repr

/-- Status of one grid level: pending, bought, or sold. -/
inductive GridLevelStatus where
  | pending
  | bought
  | sold
deriving DecidableEq, Repr

/-- Configuration of GridStrategy: gridType, totalInvestment, gridCount,
lowerPrice, upperPrice.  Prices are modelled as reals because the
geometric mode takes a real gridCount-th root. -/
structure GridConfig where
  gridType : GridType
  totalInvestment : ℚ
  gridCount : ℕ
  lowerPrice : ℝ
  upperPrice : ℝ

/-- One grid level as pushed by pushGrid (transaction hashes omitted;
they start as null and play no role in the verified properties). -/
structure GridLevel where
  price : ℝ
  status : GridLevelStatus
  amount : ℚ

/-- Rounding a quote-currency amount to two decimal places, modelling
parseFloat(x.toFixed(2)) on an exact decimal (round to nearest, ties up,
which agrees with toFixed away from ties for positive amounts). -/
def round2 (q : ℚ) : ℚ := ((round (q * 100) : ℤ) : ℚ) / 100

/-- Level prices of the arithmetic branch of initializeGrids: for
i = 0..gridCount, lowerPrice + priceStep * i with
priceStep = (upperPrice - lowerPrice) / gridCount. -/
noncomputable def gridLevelsArith (lower upper : ℝ) (n : ℕ) : List ℝ :=
  (List.range (n + 1)).map
    (fun i : ℕ => lower + ((upper - lower) / (n : ℝ)) * (i : ℝ))

/-- Level prices of the geometric branch of initializeGrids: for
i = 0..gridCount, lowerPrice * ratio ^ i with
ratio = (upperPrice / lowerPrice) ^ (1 / gridCount) (a real root, the
idealisation of Math.pow). -/
noncomputable def gridLevelsGeom (lower upper : ℝ) (n : ℕ) : List ℝ :=
  (List.range (n + 1)).map
    (fun i => lower * ((upper / lower) ^ ((1 : ℝ) / n)) ^ i)

/-- Level prices generated by initializeGrids according to gridType. -/
noncomputable def gridLevelPrices (c : GridConfig) : List ℝ :=
  match c.gridType with
  | GridType.geometric => gridLevelsGeom c.lowerPrice c.upperPrice c.gridCount
  | GridType.arithmetic => gridLevelsArith c.lowerPrice c.upperPrice c.gridCount

/-- GridStrategy.initializeGrids: computes the per-grid amount as
totalInvestment / gridCount rounded to two decimals, throws when that
amount is below 1 USDT, and otherwise builds the gridCount+1 levels, all
pending, each carrying the per-grid amount.  Note the source assigns
this.amountPerGrid before the minimum check. -/
noncomputable def initializeGrids (c : GridConfig) :
    Except String (ℚ × List GridLevel) :=
  let amountPerGrid := round2 (c.totalInvestment / (c.gridCount : ℚ))
  if amountPerGrid < 1 then
    Except.error "单格金额过小，请增加总投入或减少网格数"
  else
    Except.ok (amountPerGrid,
      (gridLevelPrices c).map (fun p =>
        { price := p, status := GridLevelStatus.pending,
          amount := amountPerGrid }))

/-- Mutable state of a GridStrategy instance; the constructor zeroes
amountPerGrid and starts with an empty grids array. -/
structure GridStrategy where
  config : GridConfig
  isRunning : Bool
  timer : Bool
  amountPerGrid : ℚ
  grids : List GridLevel

/-- Grid log events; message text abstracted to the event kind. -/
inductive GridLog where
  | initComplete
  | started
  | startFailed
  | stopped
deriving DecidableEq, Repr

/-- GridStrategy.start: throws when already running (before the try
block, no mutation, no log); otherwise runs initializeGrids inside a try
— on failure the catch resets the running flag, logs the start failure
and rethrows (the per-grid amount assignment made before the throw is
kept); on success the running flag flips, logs are emitted and the
recurring timer is scheduled. -/
noncomputable def gridStart (s : GridStrategy) : StartResult GridStrategy GridLog :=
  if s.isRunning then
    { err := some "策略已在运行中", state := s, logs := [] }
  else
    match initializeGrids s.config with
    | Except.error msg =>
        let a := round2 (s.config.totalInvestment / (s.config.gridCount : ℚ))
        { err := some msg,
          state := { s with amountPerGrid := a, isRunning := false },
          logs := [GridLog.startFailed] }
    | Except.ok r =>
        let s2 := { s with amountPerGrid := r.1, grids := r.2 }
        { err := none,
          state := { s2 with isRunning := true, timer := true },
          logs := [GridLog.initComplete, GridLog.started] }

/-- GridStrategy.stop: clears the timer if set, flips the running flag
false, and unconditionally emits the stopped log. -/
def gridStop (s : GridStrategy) : GridStrategy × List GridLog :=
  ({ s with timer := false, isRunning := false }, [GridLog.stopped])

/-- View of a strategy instance as seen by the BotRunner registry: the
fields its liveness query reads (isRunning, and whether the instance
still holds a timer handle). -/
structure RunnerStrategy where
  isRunning : Bool
  timer : Bool
deriving DecidableEq, Repr

/-- JavaScript Map.set on an association list: replaces the value at an
existing key in place, otherwise appends the new entry. -/
def mapSet {α : Type} (m : List (ℕ × α)) (k : ℕ) (v : α) : List (ℕ × α) :=
  match m with
  | [] => [(k, v)]
  | (k0, v0) :: rest =>
      if k0 = k then (k, v) :: rest else (k0, v0) :: mapSet rest k v

/-- JavaScript Map.get on an association list. -/
def mapGet {α : Type} (m : List (ℕ × α)) (k : ℕ) : Option α :=
  match m with
  | [] => none
  | (k0, v0) :: rest => if k0 = k then some v0 else mapGet rest k

/-- JavaScript Map.delete on an association list: removes the entry with
the given key (keys are unique under mapSet); absent keys are a no-op. -/
def mapDelete {α : Type} (m : List (ℕ × α)) (k : ℕ) : List (ℕ × α) :=
  match m with
  | [] => []
  | (k0, v0) :: rest =>
      if k0 = k then rest else (k0, v0) :: mapDelete rest k

/-- BotRunner registry state: the strategies map and the stats-timer
map.  Bot ids are abstracted to naturals; timer handles to naturals. -/
structure BotRunner where
  strategies : List (ℕ × RunnerStrategy)
  timers : List (ℕ × ℕ)
deriving DecidableEq, Repr

/-- BotRunner.registerStrategy: stores (overwrites) the instance under
the bot id. -/
def registerStrategy (r : BotRunner) (botId : ℕ) (s : RunnerStrategy) :
    BotRunner :=
  { r with strategies := mapSet r.strategies botId s }

/-- BotRunner.stopStrategy: stops the instance when present, removes the
registry entry, and clears any associated stats timer.  On an
unregistered id both deletes are no-ops and no stop call is made. -/
def stopStrategy (r : BotRunner) (botId : ℕ) : BotRunner :=
  { strategies := mapDelete r.strategies botId,
    timers := mapDelete r.timers botId }

/-- BotRunner.isStrategyRunning: truthiness of
strategy && strategy.isRunning && strategy.timer. -/
def isStrategyRunning (r : BotRunner) (botId : ℕ) : Bool :=
  match mapGet r.strategies botId with
  | none => false
  | some s => s.isRunning && s.timer

/-- Freshly constructed BuySellStrategy with the default config of the
strategy metadata (thresholds scaled to integers for illustration). -/
def bsFresh : BuySellStrategy :=
  { config := { buyThreshold := 8, sellThreshold := 15,
                tradeAmount := 1, checkInterval := 30 },
    isRunning := false, timer := false, lastPrice := none,
    stats := bsStats0 }

/-- BuySellStrategy instance after a successful start. -/
def bsRunning : BuySellStrategy := { bsFresh with isRunning := true, timer := true }

/-- Freshly constructed DCAStrategy: amount 10 per tick, budget 25. -/
def dcaFresh : DCAStrategy :=
  { config := { amount := 10, interval := 3600, totalBudget := 25, maxPrice := none },
    isRunning := false, timer := false, totalSpent := 0, executedTimes := 0 }

/-- DCAStrategy instance after a successful start. -/
def dcaRunning : DCAStrategy := { dcaFresh with isRunning := true, timer := true }

/-- Stopped DCAStrategy whose spent counter already exceeds its budget
(e.g. restored from persisted counters). -/
def dcaExhausted : DCAStrategy := { dcaFresh with totalSpent := 30, executedTimes := 3 }

/-- Freshly constructed GridStrategy: 5 USDT over 10 grids (per-grid
amount 0.50, below the 1 USDT minimum). -/
noncomputable def gridFresh : GridStrategy :=
  { config := { gridType := GridType.arithmetic, totalInvestment := 5,
                gridCount := 10, lowerPrice := 10, upperPrice := 20 },
    isRunning := false, timer := false, amountPerGrid := 0, grids := [] }

/-- GridStrategy instance marked running. -/
noncomputable def gridRunning : GridStrategy :=
  { gridFresh with isRunning := true, timer := true }

/-- Freshly constructed GridStrategy whose raw per-grid amount
996/1000 = 0.996 lies below 1 while its two-decimal rounding is 1.00. -/
noncomputable def gridBorder : GridStrategy :=
  { config := { gridType := GridType.arithmetic, totalInvestment := 996,
                gridCount := 1000, lowerPrice := 10, upperPrice := 20 },
    isRunning := false, timer := false, amountPerGrid := 0, grids := [] }

/-- Keys absent from an association list are not found by mapGet. -/
theorem mapGet_eq_none_iff {α : Type} (m : List (ℕ × α)) (k : ℕ) :
    mapGet m k = none ↔ k ∉ m.map Prod.fst := by
  induction m with
  | nil => simp [mapGet]
  | cons p rest ih =>
      obtain ⟨k0, v0⟩ := p
      by_cases hk : k0 = k
      · subst hk
        simp [mapGet]
      · simp [mapGet, hk, ih, Ne.symm hk]

/-- Deleting a key from an association list with distinct keys removes it
from the view of mapGet. -/
theorem mapGet_mapDelete_self {α : Type} (m : List (ℕ × α)) (k : ℕ)
    (hnd : (m.map Prod.fst).Nodup) :
    mapGet (mapDelete m k) k = none := by
  induction m with
  | nil => rfl
  | cons p rest ih =>
      obtain ⟨k0, v0⟩ := p
      simp only [List.map_cons, List.nodup_cons] at hnd
      by_cases hk : k0 = k
      · subst hk
        simp only [mapDelete, if_pos rfl]
        exact (mapGet_eq_none_iff rest k0).mpr hnd.1
      · simp only [mapDelete, if_neg hk, mapGet, if_neg hk]
        exact ih hnd.2

/-- mapSet makes the stored value visible to mapGet. -/
theorem mapGet_mapSet_self {α : Type} (m : List (ℕ × α)) (k : ℕ) (v : α) :
    mapGet (mapSet m k v) k = some v := by
  induction m with
  | nil => simp [mapSet, mapGet]
  | cons p rest ih =>
      obtain ⟨k0, v0⟩ := p
      by_cases hk : k0 = k
      · subst hk
        simp [mapSet, mapGet]
      · simp [mapSet, mapGet, hk, ih]

/-- Deleting an absent key leaves the association list unchanged. -/
theorem mapDelete_of_not_mem {α : Type} (m : List (ℕ × α)) (k : ℕ)
    (h : k ∉ m.map Prod.fst) :
    mapDelete m k = m := by
  induction m with
  | nil => rfl
  | cons p rest ih =>
      obtain ⟨k0, v0⟩ := p
      simp only [List.map_cons, List.mem_cons, not_or] at h
      simp only [mapDelete]
      rw [if_neg, ih h.2]
      intro hk
      exact h.1 hk.symm

/-- C2: on every BuySellStrategy tick of a running instance, if the
fetched price p satisfies p ≤ buyThreshold then exactly one buy is
attempted and no sell is attempted in that tick, even when
p ≥ sellThreshold also holds — the buy branch is evaluated first and
wins the tick. -/
theorem bs_buy_wins_tick (s : BuySellStrategy) (price : ℚ) (o : TradeOutcome)
    (hrun : s.isRunning = true) (hbuy : price ≤ s.config.buyThreshold) :
    (bsCheckAndTrade s price o).attempts = [TradeDirection.buy] := by
  simp [bsCheckAndTrade, hrun, hbuy]

/-- C2 witness: at price 7 with buyThreshold 8 and sellThreshold 15, a
single buy is attempted. -/
theorem bs_buy_wins_tick_witness :
    bsRunning.isRunning = true
    ∧ (7 : ℚ) ≤ bsRunning.config.buyThreshold
    ∧ (bsCheckAndTrade bsRunning 7 TradeOutcome.success).attempts
        = [TradeDirection.buy] :=
  ⟨rfl, by norm_num [bsRunning, bsFresh],
    bs_buy_wins_tick bsRunning 7 TradeOutcome.success rfl
      (by norm_num [bsRunning, bsFresh])⟩

/-- C4 counterexample: calling BuySellStrategy.start while the strategy
is already running does not raise — it returns normally with err = none,
merely emitting a warning log; so the claim that every strategy variant
raises an AlreadyRunning-style error is false for the threshold variant. -/
theorem bs_start_when_running_raises_no_error :
    (bsStart bsRunning).err = none
    ∧ (bsStart bsRunning).logs.map bsLogLevel = [LogLevel.warning] :=
  ⟨rfl, rfl⟩

/-- C4 amended: calling start() while already running raises an
AlreadyRunning-style error for the DCA and Grid variants and leaves
their state unchanged, while the BuySell (threshold) variant logs a
warning and returns normally without error and without state change. -/
theorem start_already_running_behavior
    (b : BuySellStrategy) (d : DCAStrategy) (g : GridStrategy)
    (hb : b.isRunning = true) (hd : d.isRunning = true)
    (hg : g.isRunning = true) :
    (dcaStart d).err = some "策略已在运行中"
    ∧ (dcaStart d).state = d
    ∧ (gridStart g).err = some "策略已在运行中"
    ∧ (gridStart g).state = g
    ∧ bsStart b
        = { err := none, state := b, logs := [BSLog.alreadyRunningWarning] } := by
  refine ⟨?_, ?_, ?_, ?_, ?_⟩ <;> simp [dcaStart, gridStart, bsStart, hb, hd, hg]

/-- C4 amended witness: concrete running instances of the three variants. -/
theorem start_already_running_behavior_witness :
    bsRunning.isRunning = true
    ∧ dcaRunning.isRunning = true
    ∧ gridRunning.isRunning = true
    ∧ ((dcaStart dcaRunning).err = some "策略已在运行中"
       ∧ (dcaStart dcaRunning).state = dcaRunning
       ∧ (gridStart gridRunning).err = some "策略已在运行中"
       ∧ (gridStart gridRunning).state = gridRunning
       ∧ bsStart bsRunning
           = { err := none, state := bsRunning,
               logs := [BSLog.alreadyRunningWarning] }) :=
  ⟨rfl, rfl, rfl,
    start_already_running_behavior bsRunning dcaRunning gridRunning rfl rfl rfl⟩

/-- C5 counterexample: the second consecutive stop() call emits the stop
summary log again (a duplicate of the first call's entry), so the claim
that no log entries are emitted beyond the first call is false. -/
theorem stop_second_call_emits_duplicate_log :
    (bsStop (bsStop bsRunning).1).2 = [BSLog.stopSummary]
    ∧ (bsStop (bsStop bsRunning).1).2 = (bsStop bsRunning).2
    ∧ (bsStop (bsStop bsRunning).1).2 ≠ []
    ∧ (dcaStop (dcaStop dcaRunning).1).2 = [DCALog.stopSummary]
    ∧ (dcaStop (dcaStop dcaRunning).1).2 ≠ [] :=
  ⟨rfl, rfl, by decide, rfl, by decide⟩

/-- C5 amended: calling stop() twice in a row produces no error and the
second call is a no-op with respect to timer state and the running flag
(the stopped state is a fixed point of stop), but each call — including
the second — emits the summary log entry again. -/
theorem stop_twice_state_idempotent_logs_repeat
    (b : BuySellStrategy) (d : DCAStrategy) :
    bsStop ((bsStop b).1) = ((bsStop b).1, [BSLog.stopSummary])
    ∧ (bsStop b).1.timer = false
    ∧ (bsStop b).1.isRunning = false
    ∧ dcaStop ((dcaStop d).1) = ((dcaStop d).1, [DCALog.stopSummary])
    ∧ (dcaStop d).1.timer = false
    ∧ (dcaStop d).1.isRunning = false := by
  refine ⟨?_, rfl, rfl, ?_, rfl, rfl⟩ <;> simp [bsStop, dcaStop]

/-- C6 counterexample: an insufficient-funds-class buy failure increments
stats.failedTrades (from 0 to 1), so the claim that such failures do not
increment the generic failure counter is false. -/
theorem bs_insufficient_funds_increments_failed_counter :
    (bsExecuteBuy bsFresh.config bsStats0 10 TradeOutcome.failInsufficient).1.failedTrades
      = 1
    ∧ bsStats0.failedTrades = 0 :=
  ⟨rfl, rfl⟩

/-- C6 amended: in BuySellStrategy, insufficient-funds-class trade
failures are logged on the warning channel and all other failures on the
error channel, but stats.failedTrades is incremented on every failure
class, for both executeBuy and executeSell. -/
theorem bs_failure_logging_policy (c : BSConfig) (st : BSStats) (price : ℚ) :
    ((bsExecuteBuy c st price TradeOutcome.failInsufficient).2.map bsLogLevel
        = [LogLevel.info, LogLevel.warning]
      ∧ (bsExecuteBuy c st price TradeOutcome.failInsufficient).1.failedTrades
        = st.failedTrades + 1)
    ∧ ((bsExecuteBuy c st price TradeOutcome.failOther).2.map bsLogLevel
        = [LogLevel.info, LogLevel.error]
      ∧ (bsExecuteBuy c st price TradeOutcome.failOther).1.failedTrades
        = st.failedTrades + 1)
    ∧ ((bsExecuteSell c st price TradeOutcome.failInsufficient).2.map bsLogLevel
        = [LogLevel.info, LogLevel.warning]
      ∧ (bsExecuteSell c st price TradeOutcome.failInsufficient).1.failedTrades
        = st.failedTrades + 1)
    ∧ ((bsExecuteSell c st price TradeOutcome.failOther).2.map bsLogLevel
        = [LogLevel.info, LogLevel.error]
      ∧ (bsExecuteSell c st price TradeOutcome.failOther).1.failedTrades
        = st.failedTrades + 1) := by
  refine ⟨⟨rfl, rfl⟩, ⟨rfl, rfl⟩, ⟨rfl, rfl⟩, ⟨rfl, rfl⟩⟩

/-- C7 evidence (code bug): on a freshly started strategy with zero
trades, two consecutive idle ticks (prices strictly between the
thresholds) both emit the heartbeat status log, because the source
gates the heartbeat on (totalBuyCount + totalSellCount) % 10 == 0 —
trade counts, which stay 0 across idle ticks — rather than on a count
of checks, contradicting its own comment and the intended
once-per-10-ticks bound. -/
theorem bs_heartbeat_every_idle_tick_when_no_trades :
    (bsCheckAndTrade bsRunning 10 TradeOutcome.success).logs = [BSLog.heartbeat]
    ∧ (bsCheckAndTrade
        (bsCheckAndTrade bsRunning 10 TradeOutcome.success).state
        11 TradeOutcome.success).logs = [BSLog.heartbeat] := by
  constructor <;> norm_num [bsCheckAndTrade, bsRunning, bsFresh, bsStats0]

/-- C9: after stopStrategy(id) the runner reports the bot as not running
(the registry entry is removed); re-registering the same id afterwards
succeeds and is immediately visible without any explicit delete; and
stopStrategy on an unregistered id leaves the runner unchanged. -/
theorem runner_stop_register_semantics (r : BotRunner) (botId : ℕ)
    (h : RunnerStrategy)
    (hnd : (r.strategies.map Prod.fst).Nodup) :
    isStrategyRunning (stopStrategy r botId) botId = false
    ∧ mapGet (registerStrategy (stopStrategy r botId) botId h).strategies botId
        = some h
    ∧ (mapGet r.strategies botId = none → mapGet r.timers botId = none →
        stopStrategy r botId = r) := by
  refine ⟨?_, ?_, ?_⟩
  · unfold isStrategyRunning stopStrategy
    rw [mapGet_mapDelete_self r.strategies botId hnd]
  · unfold registerStrategy stopStrategy
    exact mapGet_mapSet_self _ _ _
  · intro hs ht
    unfold stopStrategy
    rw [mapDelete_of_not_mem _ _ ((mapGet_eq_none_iff _ _).mp hs),
        mapDelete_of_not_mem _ _ ((mapGet_eq_none_iff _ _).mp ht)]

/-- C9 witness: a runner holding one running strategy under id 1. -/
theorem runner_stop_register_semantics_witness :
    ((([(1, ({ isRunning := true, timer := true } : RunnerStrategy))]).map
        Prod.fst).Nodup)
    ∧ (isStrategyRunning
        (stopStrategy
          { strategies := [(1, { isRunning := true, timer := true })],
            timers := [] } 1) 1 = false
      ∧ mapGet (registerStrategy
          (stopStrategy
            { strategies := [(1, { isRunning := true, timer := true })],
              timers := [] } 1) 1
          { isRunning := true, timer := true }).strategies 1
          = some { isRunning := true, timer := true }
      ∧ (mapGet ({ strategies := [(1, { isRunning := true, timer := true })],
                   timers := [] } : BotRunner).strategies 1 = none →
         mapGet ({ strategies := [(1, { isRunning := true, timer := true })],
                   timers := [] } : BotRunner).timers 1 = none →
         stopStrategy
           { strategies := [(1, { isRunning := true, timer := true })],
             timers := [] } 1
           = { strategies := [(1, { isRunning := true, timer := true })],
               timers := [] })) :=
  ⟨by decide,
    runner_stop_register_semantics
      { strategies := [(1, { isRunning := true, timer := true })], timers := [] }
      1 { isRunning := true, timer := true } (by decide)⟩

/-- C10: DCAStrategy.start on a non-running instance whose totalSpent
already reached totalBudget throws the budget-exhausted error before any
mutation: no tick is scheduled and the state (in particular isRunning =
false) is unchanged. -/
theorem dca_start_budget_exhausted (s : DCAStrategy)
    (hrun : s.isRunning = false)
    (hbudget : s.config.totalBudget ≤ s.totalSpent) :
    (dcaStart s).err = some "预算已用尽，无法启动"
    ∧ (dcaStart s).state = s := by
  constructor <;> simp [dcaStart, hrun, hbudget]

/-- C10 witness: a stopped DCA instance with totalSpent 30 over a budget
of 25 refuses to start and is left untouched. -/
theorem dca_start_budget_exhausted_witness :
    dcaExhausted.isRunning = false
    ∧ dcaExhausted.config.totalBudget ≤ dcaExhausted.totalSpent
    ∧ ((dcaStart dcaExhausted).err = some "预算已用尽，无法启动"
       ∧ (dcaStart dcaExhausted).state = dcaExhausted) :=
  ⟨rfl, by norm_num [dcaExhausted, dcaFresh],
    dca_start_budget_exhausted dcaExhausted rfl
      (by norm_num [dcaExhausted, dcaFresh])⟩

/-- One DCA tick preserves the configuration, the nominal accounting
identity totalSpent = executedTimes * amount, and the budget bound. -/
theorem dca_tick_preserves (s : DCAStrategy) (p : ℚ) (b : Bool)
    (h1 : s.totalSpent = (s.executedTimes : ℚ) * s.config.amount)
    (h2 : s.totalSpent ≤ s.config.totalBudget) :
    (dcaCheckAndExecute s p b).1.config = s.config
    ∧ (dcaCheckAndExecute s p b).1.totalSpent
        = ((dcaCheckAndExecute s p b).1.executedTimes : ℚ)
          * (dcaCheckAndExecute s p b).1.config.amount
    ∧ (dcaCheckAndExecute s p b).1.totalSpent
        ≤ (dcaCheckAndExecute s p b).1.config.totalBudget := by
  unfold dcaCheckAndExecute dcaExecuteTrade dcaStop
  by_cases hov : s.config.totalBudget < s.totalSpent + s.config.amount
  · rw [if_pos hov]
    exact ⟨rfl, h1, h2⟩
  · rw [if_neg hov]
    by_cases hskip : (match s.config.maxPrice with
        | some m => decide (m < p)
        | none => false) = true
    · rw [if_pos hskip]
      exact ⟨rfl, h1, h2⟩
    · rw [if_neg hskip]
      cases b
      · exact ⟨rfl, h1, h2⟩
      · refine ⟨rfl, ?_, ?_⟩
        · show s.totalSpent + s.config.amount
            = ((s.executedTimes + 1 : ℕ) : ℚ) * s.config.amount
          rw [h1]
          push_cast
          ring
        · show s.totalSpent + s.config.amount ≤ s.config.totalBudget
          exact not_lt.mp hov

/-- Running any scheduled tick sequence preserves the DCA configuration
and the accounting invariants. -/
theorem dca_run_preserves (ticks : List (ℚ × Bool)) (s : DCAStrategy)
    (h1 : s.totalSpent = (s.executedTimes : ℚ) * s.config.amount)
    (h2 : s.totalSpent ≤ s.config.totalBudget) :
    (dcaRun s ticks).config = s.config
    ∧ (dcaRun s ticks).totalSpent
        = ((dcaRun s ticks).executedTimes : ℚ) * s.config.amount
    ∧ (dcaRun s ticks).totalSpent ≤ s.config.totalBudget := by
  induction ticks generalizing s with
  | nil => exact ⟨rfl, h1, h2⟩
  | cons t ts ih =>
      unfold dcaRun
      by_cases ht : s.timer = true
      · rw [if_pos ht]
        obtain ⟨hc, ha, hb⟩ := dca_tick_preserves s t.1 t.2 h1 h2
        obtain ⟨hc2, ha2, hb2⟩ :=
          ih (dcaCheckAndExecute s t.1 t.2).1 ha hb
        refine ⟨hc2.trans hc, ?_, ?_⟩
        · rw [ha2, hc]
        · rw [← hc]
          exact hb2
      · rw [if_neg ht]
        exact ⟨rfl, h1, h2⟩

/-- C1: DCA budget accounting.  For any state satisfying the accounting
invariants (as a fresh start does, with totalSpent = 0 and
executedTimes = 0): (i) after any tick sequence, totalSpent equals
executedTimes * amount — after N successful buy ticks, N*amount — and
never exceeds totalBudget; (ii) a tick entered with
totalSpent + amount > totalBudget self-stops the strategy before
trading (no trade, spending unchanged, running flag and timer cleared);
(iii) a tick within budget whose optional maxPrice guard passes and
whose buy succeeds increments totalSpent by exactly the configured
amount and executedTimes by one. -/
theorem dca_budget_accounting (s : DCAStrategy) (ticks : List (ℚ × Bool))
    (h1 : s.totalSpent = (s.executedTimes : ℚ) * s.config.amount)
    (h2 : s.totalSpent ≤ s.config.totalBudget) :
    ((dcaRun s ticks).totalSpent
        = ((dcaRun s ticks).executedTimes : ℚ) * s.config.amount
      ∧ (dcaRun s ticks).totalSpent ≤ s.config.totalBudget)
    ∧ (∀ p b, s.config.totalBudget < s.totalSpent + s.config.amount →
        (dcaCheckAndExecute s p b).2.1 = DCAAction.selfStopped
        ∧ (dcaCheckAndExecute s p b).1
            = { s with timer := false, isRunning := false })
    ∧ (∀ p, s.totalSpent + s.config.amount ≤ s.config.totalBudget →
        (∀ m, s.config.maxPrice = some m → p ≤ m) →
        (dcaCheckAndExecute s p true).1.totalSpent
            = s.totalSpent + s.config.amount
        ∧ (dcaCheckAndExecute s p true).1.executedTimes
            = s.executedTimes + 1) := by
  refine ⟨?_, ?_, ?_⟩
  · obtain ⟨_, ha, hb⟩ := dca_run_preserves ticks s h1 h2
    exact ⟨ha, hb⟩
  · intro p b hov
    unfold dcaCheckAndExecute dcaStop
    rw [if_pos hov]
    exact ⟨rfl, rfl⟩
  · intro p hle hmax
    have hskip : (match s.config.maxPrice with
        | some m => decide (m < p)
        | none => false) = false := by
      cases hmp : s.config.maxPrice with
      | none => rfl
      | some m =>
          simp only [decide_eq_false_iff_not, not_lt]
          exact hmax m hmp
    unfold dcaCheckAndExecute dcaExecuteTrade
    rw [if_neg (not_lt.mpr hle)]
    rw [hskip]
    exact ⟨rfl, rfl⟩

/-- C1 witness: the spec's DCA scenario — amount 10, budget 25, three
successful ticks; the accounting invariants hold along the run. -/
theorem dca_budget_accounting_witness :
    dcaRunning.totalSpent
        = (dcaRunning.executedTimes : ℚ) * dcaRunning.config.amount
    ∧ dcaRunning.totalSpent ≤ dcaRunning.config.totalBudget
    ∧ ((dcaRun dcaRunning [(1, true), (1, true), (1, true)]).totalSpent
        = ((dcaRun dcaRunning [(1, true), (1, true), (1, true)]).executedTimes : ℚ)
          * dcaRunning.config.amount
      ∧ (dcaRun dcaRunning [(1, true), (1, true), (1, true)]).totalSpent
          ≤ dcaRunning.config.totalBudget) :=
  ⟨by norm_num [dcaRunning, dcaFresh],
   by norm_num [dcaRunning, dcaFresh],
   (dca_budget_accounting dcaRunning [(1, true), (1, true), (1, true)]
      (by norm_num [dcaRunning, dcaFresh])
      (by norm_num [dcaRunning, dcaFresh])).1⟩

/-- Optional indexing into a list built by mapping a function over
List.range yields the function value at in-range indices. -/
theorem getElem?_range_map (f : ℕ → ℝ) (n i : ℕ) (hi : i < n) :
    ((List.range n).map f)[i]? = some (f i) := by
  simp [List.getElem?_map, List.getElem?_range, hi]

/-- Specification bundle for the generated grid level prices: exactly
gridCount+1 levels in both modes; arithmetic levels strictly ascending
from lowerPrice to upperPrice inclusive with constant step
(upper-lower)/gridCount; geometric levels strictly ascending with
constant consecutive ratio (upper/lower)^(1/gridCount). -/
def GridLevelsSpec (lower upper : ℝ) (n : ℕ) : Prop :=
  (gridLevelsArith lower upper n).length = n + 1
  ∧ (gridLevelsGeom lower upper n).length = n + 1
  ∧ (gridLevelsArith lower upper n).Pairwise (· < ·)
  ∧ (gridLevelsArith lower upper n)[0]? = some lower
  ∧ (gridLevelsArith lower upper n)[n]? = some upper
  ∧ (∀ i, i < n →
      ∀ x y, (gridLevelsArith lower upper n)[i]? = some x →
        (gridLevelsArith lower upper n)[i + 1]? = some y →
        y - x = (upper - lower) / n)
  ∧ (gridLevelsGeom lower upper n).Pairwise (· < ·)
  ∧ (∀ i, i < n →
      ∀ x y, (gridLevelsGeom lower upper n)[i]? = some x →
        (gridLevelsGeom lower upper n)[i + 1]? = some y →
        y / x = (upper / lower) ^ ((1 : ℝ) / n))

/-- C3: for positive prices with lowerPrice < upperPrice and a positive
grid count, initializeGrids generates exactly gridCount+1 level prices
sorted ascending; in arithmetic mode they form the arithmetic
progression from lowerPrice to upperPrice inclusive with step
(upperPrice-lowerPrice)/gridCount, and in geometric mode consecutive
ratios are constant and equal (upperPrice/lowerPrice)^(1/gridCount). -/
theorem grid_levels_correct (lower upper : ℝ) (n : ℕ)
    (hn : 0 < n) (hl : 0 < lower) (hlu : lower < upper) :
    GridLevelsSpec lower upper n := by
  have hn0 : (0 : ℝ) < n := by exact_mod_cast hn
  have hn' : (n : ℝ) ≠ 0 := ne_of_gt hn0
  have hstep : 0 < (upper - lower) / n := div_pos (sub_pos.mpr hlu) hn0
  have hbase : 0 < upper / lower := div_pos (hl.trans hlu) hl
  have hr : 1 < (upper / lower) ^ ((1 : ℝ) / n) := by
    rw [Real.one_lt_rpow_iff_of_pos hbase]
    exact Or.inl ⟨(one_lt_div hl).mpr hlu, one_div_pos.mpr hn0⟩
  have hrpos : 0 < (upper / lower) ^ ((1 : ℝ) / n) :=
    Real.rpow_pos_of_pos hbase _
  refine ⟨?_, ?_, ?_, ?_, ?_, ?_, ?_, ?_⟩
  · simp only [gridLevelsArith, List.length_map, List.length_range]
  · simp only [gridLevelsGeom, List.length_map, List.length_range]
  · refine List.Pairwise.map _ ?_ (List.pairwise_lt_range (n + 1))
    intro a b hab
    show lower + (upper - lower) / (n : ℝ) * (a : ℝ)
        < lower + (upper - lower) / (n : ℝ) * (b : ℝ)
    have hcast : (a : ℝ) < b := by exact_mod_cast hab
    have := mul_lt_mul_of_pos_left hcast hstep
    linarith
  · rw [gridLevelsArith, getElem?_range_map _ _ _ (Nat.succ_pos n)]
    norm_num
  · rw [gridLevelsArith, getElem?_range_map _ _ _ (Nat.lt_succ_self n)]
    have h2 : lower + (upper - lower) / (n : ℝ) * (n : ℝ) = upper := by
      rw [div_mul_cancel₀ _ hn']
      ring
    rw [h2]
  · intro i hi x y hx hy
    rw [gridLevelsArith, getElem?_range_map _ _ _ (by omega : i < n + 1)] at hx
    rw [gridLevelsArith,
        getElem?_range_map _ _ _ (by omega : i + 1 < n + 1)] at hy
    obtain rfl := Option.some.inj hx
    obtain rfl := Option.some.inj hy
    push_cast
    ring
  · refine List.Pairwise.map _ ?_ (List.pairwise_lt_range (n + 1))
    intro a b hab
    show lower * ((upper / lower) ^ ((1 : ℝ) / n)) ^ a
        < lower * ((upper / lower) ^ ((1 : ℝ) / n)) ^ b
    exact mul_lt_mul_of_pos_left (pow_lt_pow_right₀ hr hab) hl
  · intro i hi x y hx hy
    rw [gridLevelsGeom, getElem?_range_map _ _ _ (by omega : i < n + 1)] at hx
    rw [gridLevelsGeom,
        getElem?_range_map _ _ _ (by omega : i + 1 < n + 1)] at hy
    obtain rfl := Option.some.inj hx
    obtain rfl := Option.some.inj hy
    have hlne : lower ≠ 0 := ne_of_gt hl
    have hrne : ((upper / lower) ^ ((1 : ℝ) / n)) ^ i ≠ 0 :=
      pow_ne_zero _ (ne_of_gt hrpos)
    have hcomm : lower * (((upper / lower) ^ ((1 : ℝ) / n)) ^ i
          * (upper / lower) ^ ((1 : ℝ) / n))
        = (lower * ((upper / lower) ^ ((1 : ℝ) / n)) ^ i)
          * (upper / lower) ^ ((1 : ℝ) / n) := by
      ring
    rw [pow_succ, hcomm, mul_div_cancel_left₀ _ (mul_ne_zero hlne hrne)]

/-- C3 witness: lowerPrice 1, upperPrice 2, gridCount 2. -/
theorem grid_levels_correct_witness :
    0 < 2 ∧ (0 : ℝ) < 1 ∧ (1 : ℝ) < 2 ∧ GridLevelsSpec 1 2 2 :=
  ⟨by norm_num, by norm_num, by norm_num,
    grid_levels_correct 1 2 2 (by norm_num) (by norm_num) (by norm_num)⟩

/-- C8 counterexample: with totalInvestment 996 and gridCount 1000 the
raw per-grid amount 996/1000 = 0.996 is below 1 unit of quote currency,
yet start() succeeds — the code checks the two-decimal-rounded amount
(1.00), so the claim that the strategy refuses to start whenever
totalInvestment/gridCount < 1 is false. -/
theorem grid_start_raw_amount_below_one_still_starts :
    gridBorder.config.totalInvestment / (gridBorder.config.gridCount : ℚ) < 1
    ∧ (gridStart gridBorder).err = none
    ∧ (gridStart gridBorder).state.isRunning = true := by
  refine ⟨by norm_num [gridBorder], ?_, ?_⟩ <;>
    norm_num [gridStart, initializeGrids, gridBorder, round2, round_eq]

/-- C8 amended: GridStrategy.start on a non-running instance fails fast
exactly when the two-decimal-rounded per-grid amount
round2(totalInvestment/gridCount) is below 1 unit of quote currency: the
error propagates to the caller, isRunning remains false, the timer is
not scheduled, and the grids array is left as it was (empty on a fresh
instance — no grids armed). -/
theorem grid_start_min_amount_check (s : GridStrategy)
    (hrun : s.isRunning = false)
    (hamt : round2 (s.config.totalInvestment / (s.config.gridCount : ℚ)) < 1) :
    (gridStart s).err = some "单格金额过小，请增加总投入或减少网格数"
    ∧ (gridStart s).state.isRunning = false
    ∧ (gridStart s).state.timer = s.timer
    ∧ (gridStart s).state.grids = s.grids := by
  refine ⟨?_, ?_, ?_, ?_⟩ <;>
    simp [gridStart, initializeGrids, hrun, hamt]

/-- C8 amended witness: 5 USDT over 10 grids gives a rounded per-grid
amount of 0.50 < 1, so the fresh instance refuses to start. -/
theorem grid_start_min_amount_check_witness :
    gridFresh.isRunning = false
    ∧ round2 (gridFresh.config.totalInvestment / (gridFresh.config.gridCount : ℚ)) < 1
    ∧ ((gridStart gridFresh).err = some "单格金额过小，请增加总投入或减少网格数"
       ∧ (gridStart gridFresh).state.isRunning = false
       ∧ (gridStart gridFresh).state.timer = gridFresh.timer
       ∧ (gridStart gridFresh).state.grids = gridFresh.grids) :=
  ⟨rfl, by norm_num [gridFresh, round2, round_eq],
    grid_start_min_amount_check gridFresh rfl
      (by norm_num [gridFresh, round2, round_eq])⟩
